import Mathlib

/-!
Verification of the JWT bearer-token verification core in
`phase2/backend/src/auth.py` (shallow embedding).

Stateful module-level cache `_jwks_cache` is modelled by explicit state
passing of an `Option Jwks` value; HTTP calls and cryptographic library
calls (`jwt.get_unverified_header`, `jwt.decode`, `PyJWKClient`) are
modelled as oracle fields of an environment record, so that `verify_token`
becomes a pure function of the environment and the cache state.
Bytes are modelled as `List Nat` (each entry < 256 for real inputs).
-/

namespace Auth

/-- A JWKS key record (one dict of `jwks["keys"]`); absent dict fields are
`none`, mirroring `dict.get` returning `None`. -/
structure KeyRecord where
  kid : Option String
  kty : Option String
  crv : Option String
  x : Option String
deriving Repr, DecidableEq

/-- The JWKS document (`jwks`), shaped as a dict with a `keys` list;
`jwks.get("keys", [])` is modelled by the `keys` field defaulting to `[]`
when the JSON object has no such member. -/
structure Jwks where
  keys : List KeyRecord
deriving Repr, DecidableEq

/-- The unverified JWT header: `alg` and `kid` fields, each possibly
absent (`dict.get` semantics). -/
structure Header where
  alg : Option String
  kid : Option String
deriving Repr, DecidableEq

/-- The decoded JWT payload restricted to the claims `verify_token`
reads: `sub`, `email`, `name`. -/
structure Payload where
  sub : Option String
  email : Option String
  name : Option String
deriving Repr, DecidableEq

/-- `AuthUser`: authenticated user from JWT token (class `AuthUser`). -/
structure AuthUser where
  id : String
  email : String
  name : Option String
deriving Repr, DecidableEq

/-- Python truthiness of an optional string value: `None` and the empty
string are falsy, every other string truthy (`if kid`, `if not user_id`). -/
def pyTruthy : Option String → Bool
  | none => false
  | some s => !s.isEmpty

/-- The failure outcomes of the module, one constructor per
`HTTPException`-raising site of `auth.py`. -/
inductive Failure where
  /-- `jwt.get_unverified_header` raised `InvalidTokenError`
  (401, detail "Token validation failed: ..."). -/
  | malformedToken (msg : String)
  /-- `get_jwks` raised 503, detail "Failed to fetch JWKS: ...". -/
  | upstreamUnavailable (msg : String)
  /-- 401, detail "No matching key found in JWKS". -/
  | keyNotFound
  /-- 401, detail "Unsupported algorithm: ...". -/
  | unsupportedAlgorithm (alg : String)
  /-- `jwt.ExpiredSignatureError`: 401, detail "Token has expired". -/
  | tokenExpired
  /-- `jwt.decode` raised `InvalidTokenError`
  (401, detail "Token validation failed: ..."). -/
  | signatureInvalid (msg : String)
  /-- 401, detail "Invalid token payload". -/
  | invalidPayload
  /-- any other exception: 401, detail "Authentication error: ...". -/
  | authError (msg : String)
deriving Repr, DecidableEq

/-- The HTTP status code each failure is raised with in `auth.py`:
the JWKS-fetch failure is 503 SERVICE_UNAVAILABLE, every other failure
is 401 UNAUTHORIZED. -/
def Failure.statusCode : Failure → Nat
  | .upstreamUnavailable _ => 503
  | _ => 401

/-- Value of a base64 alphabet character (both the standard and the
URL-safe alphabet, as `urlsafe_b64decode` translates `-_` to `+/`). -/
def b64Val (c : Char) : Option Nat :=
  if 'A' ≤ c ∧ c ≤ 'Z' then some (c.toNat - 65)
  else if 'a' ≤ c ∧ c ≤ 'z' then some (c.toNat - 97 + 26)
  else if '0' ≤ c ∧ c ≤ '9' then some (c.toNat - 48 + 52)
  else if c = '-' ∨ c = '+' then some 62
  else if c = '_' ∨ c = '/' then some 63
  else none

/-- Decode a list of 6-bit values into bytes: each full group of four
values yields three bytes, a trailing group of two or three values
yields one or two bytes. -/
def decodeVals : List Nat → List Nat
  | a :: b :: c :: d :: rest =>
      (a * 4 + b / 16) :: ((b % 16) * 16 + c / 4) :: ((c % 4) * 64 + d) ::
        decodeVals rest
  | [a, b] => [a * 4 + b / 16]
  | [a, b, c] => [a * 4 + b / 16, (b % 16) * 16 + c / 4]
  | _ => []

/-- `base64.urlsafe_b64decode` on a string: characters outside the
alphabet and `=` are discarded (CPython decodes with `validate=False`),
the total character count must be a multiple of 4 (else
`binascii.Error` "Incorrect padding"), the data-character count must not
be 1 mod 4 (else `binascii.Error`), and the surviving 6-bit values are
packed into bytes. -/
def urlsafe_b64decode (s : String) : Except String (List Nat) :=
  let cs := s.toList.filter fun c => (b64Val c).isSome || c == '='
  let vals := (cs.takeWhile fun c => c != '=').filterMap b64Val
  if cs.length % 4 != 0 then .error "Incorrect padding"
  else if vals.length % 4 == 1 then .error "Invalid base64-encoded string"
  else .ok (decodeVals vals)

/-- `base64url_decode(data)`: add `=` padding if the length is not a
multiple of 4, then `base64.urlsafe_b64decode`. -/
def base64url_decode (data : String) : Except String (List Nat) :=
  let padding := 4 - data.length % 4
  let data := if padding != 4
    then data ++ String.mk (List.replicate padding '=') else data
  urlsafe_b64decode data

/-- `clear_jwks_cache()`: set `_jwks_cache = None` unconditionally. -/
def clear_jwks_cache (_cache : Option Jwks) : Option Jwks := none

/-- `get_jwks()`: return the cached document if present; otherwise
perform the HTTP fetch (whose outcome is the `fetch` argument), store
and return the document on success, raise the 503 failure on any
exception.  Result: (returned value or failure, new cache state, number
of HTTP fetch attempts made by this call). -/
def get_jwks (cache : Option Jwks) (fetch : Except String Jwks) :
    Except Failure Jwks × Option Jwks × Nat :=
  match cache with
  | some j => (.ok j, some j, 0)
  | none =>
    match fetch with
    | .ok j => (.ok j, some j, 1)
    | .error e =>
        (.error (.upstreamUnavailable ("Failed to fetch JWKS: " ++ e)), none, 1)

/-- The key-selection loop of `verify_token`: walk `jwks["keys"]`; if
`kid` is truthy take the first record whose `kid` field equals it, if
`kid` is falsy take the first record unconditionally; `none` when the
loop sets nothing. -/
def find_key (kid : Option String) : List KeyRecord → Option KeyRecord
  | [] => none
  | k :: ks =>
    if pyTruthy kid then
      if k.kid == kid then some k else find_key kid ks
    else some k

/-- Outcome of a `jwt.decode` call: success with the payload,
`ExpiredSignatureError`, or `InvalidTokenError` with a message. -/
inductive SigOutcome where
  | ok (payload : Payload)
  | expired
  | badSig (msg : String)
deriving Repr, DecidableEq

/-- Environment of one `verify_token` call: the outcomes of the
library and network operations it performs on its token. -/
structure Env where
  /-- `jwt.get_unverified_header(token)`; an error is an
  `InvalidTokenError` message. -/
  parseHeader : Except String Header
  /-- outcome of the HTTP fetch `get_jwks` performs on a cache miss. -/
  fetch : Except String Jwks
  /-- `jwt.decode(token, public_key, algorithms=["EdDSA"])` where
  `public_key` was built from the given 32 raw key bytes. -/
  edVerify : List Nat → SigOutcome
  /-- `PyJWKClient(url).get_signing_key_from_jwt(token)`; an error is a
  `PyJWKClientError`-style exception message (not an
  `InvalidTokenError`, so it falls to the generic handler). -/
  rsaResolve : Except String String
  /-- `jwt.decode(token, signing_key.key, algorithms=[alg])` for the
  resolved RSA key and declared algorithm. -/
  rsaVerify : String → String → SigOutcome

/-- The claims-mapping tail of `verify_token`: require truthy `sub` and
`email`, else the "Invalid token payload" failure; pass `name` through. -/
def extract_claims (payload : Payload) : Except Failure AuthUser :=
  if pyTruthy payload.sub && pyTruthy payload.email then
    .ok { id := payload.sub.getD "", email := payload.email.getD "",
          name := payload.name }
  else .error .invalidPayload

/-- Map a `jwt.decode` outcome through the exception handlers of
`verify_token`: success goes on to claims extraction,
`ExpiredSignatureError` becomes the expiry failure, `InvalidTokenError`
becomes the 401 "Token validation failed" failure. -/
def sigResult (o : SigOutcome) : Except Failure AuthUser :=
  match o with
  | .ok payload => extract_claims payload
  | .expired => .error .tokenExpired
  | .badSig m => .error (.signatureInvalid ("Token validation failed: " ++ m))

/-- The EdDSA branch body: decode `key_data["x"]` (a `KeyError` on an
absent field and a `binascii.Error` on bad base64 both reach the generic
handler), build the Ed25519 public key (`from_public_bytes` raises
`ValueError` unless given exactly 32 bytes), then `jwt.decode`. -/
def eddsaOutcome (env : Env) (key_data : KeyRecord) : Except Failure AuthUser :=
  match key_data.x with
  | none => .error (.authError "KeyError: x")
  | some xs =>
    match base64url_decode xs with
    | .error e => .error (.authError e)
    | .ok bytes =>
      if bytes.length != 32 then
        .error (.authError "An Ed25519 public key is 32 bytes long")
      else sigResult (env.edVerify bytes)

/-- The RSA branch body: `PyJWKClient` fetches the JWKS endpoint afresh
and resolves the signing key from the token (failures reach the generic
handler), then `jwt.decode` with the declared algorithm. -/
def rsaOutcome (env : Env) (alg : String) : Except Failure AuthUser :=
  match env.rsaResolve with
  | .error e => .error (.authError ("Authentication error: " ++ e))
  | .ok key => sigResult (env.rsaVerify key alg)

/-- The algorithm dispatch of `verify_token` once a key record is
resolved: the EdDSA branch requires the declared algorithm to be
"EdDSA" and the record to be an OKP/Ed25519 record; the RSA branch
fires on any of the three RSA algorithm names regardless of the
resolved record; anything else is the unsupported-algorithm failure. -/
def verifyWithKey (env : Env) (alg : String) (key_data : KeyRecord) :
    Except Failure AuthUser :=
  if alg == "EdDSA" && key_data.kty == some "OKP"
      && key_data.crv == some "Ed25519" then
    eddsaOutcome env key_data
  else if alg == "RS256" || alg == "RS384" || alg == "RS512" then
    rsaOutcome env alg
  else .error (.unsupportedAlgorithm alg)

/-- `verify_token`: parse the unverified header (defaulting a missing
`alg` to "EdDSA"), fetch or reuse the cached JWKS, resolve the key
record, dispatch on the algorithm, verify the signature and extract the
claims.  Result: (the returned `AuthUser` or raised failure, the new
cache state, the number of JWKS-cache HTTP fetches performed). -/
def verify_token (env : Env) (cache : Option Jwks) :
    Except Failure AuthUser × Option Jwks × Nat :=
  match env.parseHeader with
  | .error e =>
      (.error (.malformedToken ("Token validation failed: " ++ e)), cache, 0)
  | .ok header =>
    let alg := header.alg.getD "EdDSA"
    let kid := header.kid
    match get_jwks cache env.fetch with
    | (.error f, cache2, n) => (.error f, cache2, n)
    | (.ok jwks, cache2, n) =>
      match find_key kid jwks.keys with
      | none => (.error .keyNotFound, cache2, n)
      | some key_data => (verifyWithKey env alg key_data, cache2, n)

/-! Concrete objects shared by witnesses and counterexamples. -/

/-- A 43-character base64url string decoding to 32 zero bytes: a
well-formed Ed25519 public-key coordinate. -/
def okpKeyX : String := String.mk (List.replicate 43 'A')

/-- An OKP/Ed25519 key record with identifier "k1". -/
def okpKey : KeyRecord := ⟨some "k1", some "OKP", some "Ed25519", some okpKeyX⟩

/-- A payload carrying subject "u1" and email, no name claim. -/
def uPayload : Payload := ⟨some "u1", some "u1@x.com", none⟩

/-- An environment whose token declares EdDSA with kid "k1" and whose
EdDSA signature check succeeds with `uPayload`. -/
def edEnv : Env :=
  { parseHeader := .ok ⟨some "EdDSA", some "k1"⟩
    fetch := .ok ⟨[okpKey]⟩
    edVerify := fun _ => .ok uPayload
    rsaResolve := .error "unused"
    rsaVerify := fun _ _ => .badSig "unused" }

/-- Selecting with an empty-string kid equals selecting with no kid:
the empty string is falsy in Python, so the loop takes its fallback
branch. -/
theorem find_key_empty_kid (keys : List KeyRecord) :
    find_key (some "") keys = find_key none keys := by
  cases keys <;> rfl

/-- A non-None string value is truthy exactly when it is non-empty. -/
theorem pyTruthy_some (s : String) : pyTruthy (some s) = true ↔ s ≠ "" := by
  constructor
  · intro h he
    subst he
    exact absurd h (by decide)
  · intro h
    have hb : s.isEmpty = false := by
      cases hb : s.isEmpty
      · rfl
      · exact absurd ((String.isEmpty_iff s).mp hb) h
    simp [pyTruthy, hb]

/-- Claim C4: with a (truthy) key identifier the resolver returns the
first record whose `kid` equals it; with no identifier it returns the
first record of the key set unconditionally; and when the loop resolves
nothing, `verify_token` fails with the key-not-found failure. -/
theorem C4_key_resolution :
    (∀ (keys : List KeyRecord) (s : String), s ≠ "" →
        find_key (some s) keys = keys.find? fun k => k.kid == some s) ∧
    (∀ (k : KeyRecord) (ks : List KeyRecord), find_key none (k :: ks) = some k) ∧
    (∀ (env : Env) (jwks : Jwks) (header : Header),
        env.parseHeader = .ok header →
        find_key header.kid jwks.keys = none →
        (verify_token env (some jwks)).1 = .error .keyNotFound) := by
  refine ⟨?_, ?_, ?_⟩
  · intro keys s hs
    have ht : pyTruthy (some s) = true := (pyTruthy_some s).mpr hs
    induction keys with
    | nil => rfl
    | cons k ks ih =>
        rw [find_key, if_pos ht, List.find?_cons]
        by_cases hk : k.kid == some s
        · rw [if_pos hk]
          simp [hk]
        · rw [if_neg hk, ih]
          simp only [Bool.not_eq_true] at hk
          simp [hk]
  · intro k ks
    rfl
  · intro env jwks header hh hk
    simp only [verify_token, hh, get_jwks, hk]

/-- Claim C5: the claims-mapping tail of `verify_token` rejects a
signature-validated payload whose subject or email claim is absent or
empty with the invalid-payload failure, and otherwise produces the
`AuthUser` whose id is the subject, whose email is the email claim, and
whose name is the optional name claim passed through unmodified. -/
theorem C5_claims_mapping (p : Payload) :
    ((p.sub = none ∨ p.sub = some "" ∨ p.email = none ∨ p.email = some "") →
        extract_claims p = .error .invalidPayload) ∧
    (∀ s e, p.sub = some s → s ≠ "" → p.email = some e → e ≠ "" →
        extract_claims p = .ok ⟨s, e, p.name⟩) := by
  constructor
  · intro hcase
    have hempty : pyTruthy (some "") = false := rfl
    have hnone : pyTruthy none = false := rfl
    have hfalse : (pyTruthy p.sub && pyTruthy p.email) = false := by
      rcases hcase with h | h | h | h <;> rw [h]
      · rw [hnone, Bool.false_and]
      · rw [hempty, Bool.false_and]
      · rw [hnone, Bool.and_false]
      · rw [hempty, Bool.and_false]
    simp [extract_claims, hfalse]
  · intro s e hs hsne he hene
    have h1 : pyTruthy (some s) = true := (pyTruthy_some s).mpr hsne
    have h2 : pyTruthy (some e) = true := (pyTruthy_some e).mpr hene
    simp [extract_claims, hs, he, h1, h2]

/-- Claim C6: `base64url_decode` pads its input to a multiple of 4 with
`=` before decoding whenever the length is not already a multiple of 4;
decoding "dGVzdA" yields the bytes of "test" and decoding "aGVsbG8"
yields the bytes of "hello". -/
theorem C6_base64url_padding :
    base64url_decode "dGVzdA" = .ok [116, 101, 115, 116] ∧
    base64url_decode "aGVsbG8" = .ok [104, 101, 108, 108, 111] ∧
    (∀ s : String, s.length % 4 ≠ 0 →
      base64url_decode s =
        urlsafe_b64decode
          (s ++ String.mk (List.replicate (4 - s.length % 4) '=')) ∧
      (s ++ String.mk (List.replicate (4 - s.length % 4) '=')).length % 4
        = 0) := by
  refine ⟨rfl, rfl, ?_⟩
  intro s hs
  have h4 : s.length % 4 < 4 := Nat.mod_lt _ (by norm_num)
  have hne : ((4 - s.length % 4) != 4) = true := by
    simp only [bne_iff_ne, ne_eq]
    omega
  constructor
  · simp only [base64url_decode, hne, if_true]
  · have hlen : (String.mk (List.replicate (4 - s.length % 4) '=')).length
        = 4 - s.length % 4 := by
      simp
    rw [String.length_append, hlen]
    omega

/-- Claim C7: cache invalidation clears the cached document
unconditionally (also when already empty), is idempotent, and after an
invalidation the next `verify_token` call performs exactly one JWKS
fetch, which succeeds and refills the cache when the fetch succeeds. -/
theorem C7_invalidate_idempotent :
    (∀ c : Option Jwks, clear_jwks_cache c = none) ∧
    (∀ c : Option Jwks,
        clear_jwks_cache (clear_jwks_cache c) = clear_jwks_cache c) ∧
    (∀ (c : Option Jwks) (fetch : Except String Jwks) (j : Jwks),
        fetch = .ok j →
        get_jwks (clear_jwks_cache c) fetch = (.ok j, some j, 1)) ∧
    (∀ (env : Env) (c : Option Jwks) (header : Header),
        env.parseHeader = .ok header →
        (verify_token env (clear_jwks_cache c)).2.2 = 1) := by
  refine ⟨fun c => rfl, fun c => rfl, ?_, ?_⟩
  · intro c fetch j hf
    simp [clear_jwks_cache, get_jwks, hf]
  · intro env c header hh
    simp only [verify_token, hh, clear_jwks_cache, get_jwks]
    rcases hf : env.fetch with e | j
    · rfl
    · rcases hk : find_key header.kid j.keys with _ | k <;> simp [hf, hk]

/-- Claim C8: when the cache is empty and the JWKS fetch fails,
`verify_token` fails with the upstream-unavailable failure, the cache
stays empty, and that failure is the only one raised with the 503
service-dependency status code rather than the 401 authentication
status. -/
theorem C8_upstream_unavailable (env : Env) (e : String) (header : Header)
    (hh : env.parseHeader = .ok header) (hf : env.fetch = .error e) :
    verify_token env none =
      (.error (.upstreamUnavailable ("Failed to fetch JWKS: " ++ e)),
        none, 1) ∧
    Failure.statusCode (.upstreamUnavailable ("Failed to fetch JWKS: " ++ e))
      = 503 ∧
    (∀ f : Failure, f.statusCode = 503 → ∃ m, f = .upstreamUnavailable m) := by
  refine ⟨?_, rfl, ?_⟩
  · simp [verify_token, hh, get_jwks, hf]
  · intro f hc
    cases f <;> simp_all [Failure.statusCode]

/-- Claim C9: a header that omits the algorithm field is treated exactly
as one declaring "EdDSA": `verify_token` behaves identically on the two
headers, and with a resolved OKP/Ed25519 record it runs the EdDSA
verification branch instead of failing. -/
theorem C9_missing_alg_defaults (env : Env) (cache : Option Jwks)
    (kid : Option String) (hh : env.parseHeader = .ok ⟨none, kid⟩) :
    verify_token env cache =
      verify_token { env with parseHeader := .ok ⟨some "EdDSA", kid⟩ } cache ∧
    (∀ (jwks : Jwks) (k : KeyRecord), cache = some jwks →
        find_key kid jwks.keys = some k →
        k.kty = some "OKP" → k.crv = some "Ed25519" →
        (verify_token env cache).1 = eddsaOutcome env k) := by
  constructor
  · simp only [verify_token, hh]
    rfl
  · intro jwks k hc hk hkty hcrv
    subst hc
    simp only [verify_token, hh, get_jwks, hk, verifyWithKey, hkty, hcrv]
    simp

/-- Claim C10: an empty-string key identifier behaves exactly like an
absent one: `verify_token` on the two headers is identical, the
resolver treats the empty-string kid as its no-kid fallback, and on a
non-empty key set it selects the first record instead of reporting a
missing key. -/
theorem C10_empty_kid_fallback (env : Env) (cache : Option Jwks)
    (alg : Option String) (hh : env.parseHeader = .ok ⟨alg, some ""⟩) :
    verify_token env cache =
      verify_token { env with parseHeader := .ok ⟨alg, none⟩ } cache ∧
    (∀ keys : List KeyRecord, find_key (some "") keys = find_key none keys) ∧
    (∀ (k : KeyRecord) (ks : List KeyRecord),
        find_key (some "") (k :: ks) = some k) := by
  refine ⟨?_, find_key_empty_kid, fun k ks => rfl⟩
  simp only [verify_token, hh, find_key_empty_kid]
  rfl

/-- An environment whose token declares RS256 with kid "k1" and whose
RSA signature check succeeds with `uPayload`. -/
def c1Env : Env :=
  { parseHeader := .ok ⟨some "RS256", some "k1"⟩
    fetch := .error "unused"
    edVerify := fun _ => .badSig "unused"
    rsaResolve := .ok "remote-rsa-key"
    rsaVerify := fun _ _ => .ok uPayload }

/-- Claim C1 counterexample: the token declares RS256 while the resolved
record is the OKP/Ed25519 key "k1"; `verify_token` does not return the
unsupported-algorithm failure — it ignores the resolved record, runs the
RSA path with a key fetched afresh from the remote endpoint, and
returns an Identity. -/
theorem C1_counterexample :
    (verify_token c1Env (some ⟨[okpKey]⟩)).1 = .ok ⟨"u1", "u1@x.com", none⟩ ∧
    (verify_token c1Env (some ⟨[okpKey]⟩)).1
      ≠ .error (.unsupportedAlgorithm "RS256") := by
  refine ⟨rfl, ?_⟩
  intro h
  rw [show (verify_token c1Env (some ⟨[okpKey]⟩)).1
      = .ok ⟨"u1", "u1@x.com", none⟩ from rfl] at h
  exact Except.noConfusion h

/-- Claim C1 amended: when the declared algorithm (after the missing-alg
default) is EdDSA but the resolved record is not an OKP/Ed25519 record,
`verify_token` returns the unsupported-algorithm failure without
attempting signature verification; the RSA-declared converse is not
rejected (see the counterexample). -/
theorem C1_eddsa_family_mismatch (env : Env) (jwks : Jwks) (header : Header)
    (k : KeyRecord) (hh : env.parseHeader = .ok header)
    (halg : header.alg.getD "EdDSA" = "EdDSA")
    (hmis : ¬(k.kty = some "OKP" ∧ k.crv = some "Ed25519"))
    (hk : find_key header.kid jwks.keys = some k) :
    (verify_token env (some jwks)).1
      = .error (.unsupportedAlgorithm "EdDSA") := by
  simp only [verify_token, hh, get_jwks, hk, halg]
  rw [verifyWithKey]
  split
  · next hcont =>
      exfalso
      simp only [Bool.and_eq_true, beq_iff_eq] at hcont
      exact hmis ⟨hcont.1.2, hcont.2⟩
  · next => rfl

/-- An environment whose token declares the unsupported algorithm
HS256. -/
def c2Env : Env :=
  { parseHeader := .ok ⟨some "HS256", none⟩
    fetch := .error "unused"
    edVerify := fun _ => .badSig "unused"
    rsaResolve := .error "unused"
    rsaVerify := fun _ _ => .badSig "unused" }

/-- Claim C2 counterexample: the token declares HS256 (outside the
supported set) and the cached key set is empty; `verify_token` returns
the key-not-found failure, not the unsupported-algorithm failure — key
lookup happens before the algorithm check. -/
theorem C2_counterexample :
    (verify_token c2Env (some ⟨[]⟩)).1 = .error .keyNotFound ∧
    (verify_token c2Env (some ⟨[]⟩)).1
      ≠ .error (.unsupportedAlgorithm "HS256") := by
  refine ⟨rfl, ?_⟩
  intro h
  rw [show (verify_token c2Env (some ⟨[]⟩)).1
      = .error .keyNotFound from rfl] at h
  injection h with h2
  exact Failure.noConfusion h2

/-- Claim C2 amended: a declared algorithm outside the supported set
yields the unsupported-algorithm failure only after the JWKS is
obtained and a key record resolves; with any resolved record the
failure is returned for every signature oracle, but an empty or
kid-unmatched key set yields the key-not-found failure first (see the
counterexample). -/
theorem C2_unsupported_algorithm (env : Env) (jwks : Jwks) (header : Header)
    (k : KeyRecord) (hh : env.parseHeader = .ok header)
    (h1 : header.alg.getD "EdDSA" ≠ "EdDSA")
    (h2 : header.alg.getD "EdDSA" ≠ "RS256")
    (h3 : header.alg.getD "EdDSA" ≠ "RS384")
    (h4 : header.alg.getD "EdDSA" ≠ "RS512")
    (hk : find_key header.kid jwks.keys = some k) :
    (verify_token env (some jwks)).1
      = .error (.unsupportedAlgorithm (header.alg.getD "EdDSA")) := by
  have e1 : (header.alg.getD "EdDSA" == "EdDSA") = false :=
    beq_eq_false_iff_ne.mpr h1
  have e2 : (header.alg.getD "EdDSA" == "RS256") = false :=
    beq_eq_false_iff_ne.mpr h2
  have e3 : (header.alg.getD "EdDSA" == "RS384") = false :=
    beq_eq_false_iff_ne.mpr h3
  have e4 : (header.alg.getD "EdDSA" == "RS512") = false :=
    beq_eq_false_iff_ne.mpr h4
  simp only [verify_token, hh, get_jwks, hk]
  rw [verifyWithKey]
  simp [e1, e2, e3, e4]

/-- Claim C3: whenever `verify_token` returns an `AuthUser`, within that
same call the header parsed, the key set was obtained (from the cache or
the fetch), a key record resolved from it, and a signature check
succeeded — on the EdDSA path against the public key decoded from the
resolved record of that key-set document, on the RSA path against a key
resolved from the remote endpoint — and the user is exactly the claims
extracted from the signature-validated payload. -/
theorem C3_identity_requires_signature (env : Env) (cache : Option Jwks)
    (user : AuthUser) (h : (verify_token env cache).1 = .ok user) :
    ∃ (header : Header) (jwks : Jwks) (k : KeyRecord) (p : Payload),
      env.parseHeader = .ok header ∧
      (get_jwks cache env.fetch).1 = .ok jwks ∧
      find_key header.kid jwks.keys = some k ∧
      extract_claims p = .ok user ∧
      ((∃ xs bytes, k.x = some xs ∧ base64url_decode xs = .ok bytes ∧
          env.edVerify bytes = .ok p) ∨
       (∃ key, env.rsaResolve = .ok key ∧
          env.rsaVerify key (header.alg.getD "EdDSA") = .ok p)) := by
  rcases hph : env.parseHeader with e | header
  · simp [verify_token, hph] at h
  rcases hg : get_jwks cache env.fetch with ⟨res, c2, n⟩
  rcases res with f | jwks
  · simp [verify_token, hph, hg] at h
  rcases hk : find_key header.kid jwks.keys with _ | k
  · simp [verify_token, hph, hg, hk] at h
  simp only [verify_token, hph, hg, hk] at h
  refine ⟨header, jwks, k, ?_⟩
  rw [verifyWithKey] at h
  split at h
  · next hcond =>
      simp only [eddsaOutcome] at h
      split at h
      · simp at h
      · next xs hx =>
          split at h
          · simp at h
          · next bytes hb =>
              split at h
              · simp at h
              · rcases ho : env.edVerify bytes with p | _ | m
                · rw [ho] at h
                  simp only [sigResult] at h
                  exact ⟨p, rfl, rfl, hk, h,
                    Or.inl ⟨xs, bytes, hx, hb, ho⟩⟩
                · rw [ho] at h
                  simp [sigResult] at h
                · rw [ho] at h
                  simp [sigResult] at h
  · split at h
    · next hcond2 =>
        simp only [rsaOutcome] at h
        split at h
        · simp at h
        · next key hr =>
            rcases ho : env.rsaVerify key (header.alg.getD "EdDSA")
              with p | _ | m
            · rw [ho] at h
              simp only [sigResult] at h
              exact ⟨p, rfl, rfl, hk, h,
                Or.inr ⟨key, hr, ho⟩⟩
            · rw [ho] at h
              simp [sigResult] at h
            · rw [ho] at h
              simp [sigResult] at h
    · simp at h

/-! Witnesses: each claim theorem with hypotheses applied at a concrete
input. -/

/-- An RSA-family key record with identifier "k2" (no curve, no `x`). -/
def rsaKey : KeyRecord := ⟨some "k2", some "RSA", none, none⟩

/-- An environment whose token declares EdDSA with kid "k2". -/
def c1wEnv : Env :=
  { parseHeader := .ok ⟨some "EdDSA", some "k2"⟩
    fetch := .error "unused"
    edVerify := fun _ => .badSig "unused"
    rsaResolve := .error "unused"
    rsaVerify := fun _ _ => .badSig "unused" }

/-- Witness for the amended C1 theorem: a token declaring EdDSA over a
resolved RSA record is rejected as unsupported. -/
theorem C1_witness :
    (verify_token c1wEnv (some ⟨[rsaKey]⟩)).1
      = .error (.unsupportedAlgorithm "EdDSA") :=
  C1_eddsa_family_mismatch c1wEnv ⟨[rsaKey]⟩ ⟨some "EdDSA", some "k2"⟩ rsaKey
    rfl rfl (by decide) rfl

/-- Witness for the amended C2 theorem: a token declaring HS256 over a
resolved key record is rejected as unsupported. -/
theorem C2_witness :
    (verify_token c2Env (some ⟨[okpKey]⟩)).1
      = .error (.unsupportedAlgorithm "HS256") :=
  C2_unsupported_algorithm c2Env ⟨[okpKey]⟩ ⟨some "HS256", none⟩ okpKey rfl
    (by decide) (by decide) (by decide) (by decide) rfl

/-- Witness for C3: a successful verification through the EdDSA path on
an initially empty cache. -/
theorem C3_witness :
    ∃ (header : Header) (jwks : Jwks) (k : KeyRecord) (p : Payload),
      edEnv.parseHeader = .ok header ∧
      (get_jwks none edEnv.fetch).1 = .ok jwks ∧
      find_key header.kid jwks.keys = some k ∧
      extract_claims p = .ok ⟨"u1", "u1@x.com", none⟩ ∧
      ((∃ xs bytes, k.x = some xs ∧ base64url_decode xs = .ok bytes ∧
          edEnv.edVerify bytes = .ok p) ∨
       (∃ key, edEnv.rsaResolve = .ok key ∧
          edEnv.rsaVerify key (header.alg.getD "EdDSA") = .ok p)) :=
  C3_identity_requires_signature edEnv none ⟨"u1", "u1@x.com", none⟩ rfl

/-- An environment whose token declares EdDSA with a kid matching no
record. -/
def c4Env : Env :=
  { parseHeader := .ok ⟨some "EdDSA", some "nope"⟩
    fetch := .error "unused"
    edVerify := fun _ => .badSig "unused"
    rsaResolve := .error "unused"
    rsaVerify := fun _ _ => .badSig "unused" }

/-- Witness for C4 at concrete key sets and an unmatched identifier. -/
theorem C4_witness :
    find_key (some "k1") [okpKey]
      = [okpKey].find? (fun k => k.kid == some "k1") ∧
    find_key none [okpKey] = some okpKey ∧
    (verify_token c4Env (some ⟨[okpKey]⟩)).1 = .error .keyNotFound :=
  ⟨C4_key_resolution.1 [okpKey] "k1" (by decide),
   C4_key_resolution.2.1 okpKey [],
   C4_key_resolution.2.2 c4Env ⟨[okpKey]⟩ ⟨some "EdDSA", some "nope"⟩ rfl rfl⟩

/-- Witness for C5: a payload missing its email claim is rejected, a
complete payload maps to the expected user. -/
theorem C5_witness :
    extract_claims ⟨some "u1", none, none⟩ = .error .invalidPayload ∧
    extract_claims uPayload = .ok ⟨"u1", "u1@x.com", none⟩ :=
  ⟨(C5_claims_mapping ⟨some "u1", none, none⟩).1 (Or.inr (Or.inr (Or.inl rfl))),
   (C5_claims_mapping uPayload).2 "u1" "u1@x.com" rfl (by decide) rfl (by decide)⟩

/-- Witness for C6 at the length-7 input "aGVsbG8". -/
theorem C6_witness :
    "aGVsbG8".length % 4 ≠ 0 ∧
    (base64url_decode "aGVsbG8" =
      urlsafe_b64decode
        ("aGVsbG8" ++ String.mk (List.replicate (4 - "aGVsbG8".length % 4) '='))
      ∧
     ("aGVsbG8" ++
        String.mk (List.replicate (4 - "aGVsbG8".length % 4) '=')).length % 4
       = 0) :=
  ⟨by decide, C6_base64url_padding.2.2 "aGVsbG8" (by decide)⟩

/-- Witness for C7 at a concrete filled cache and a concrete call. -/
theorem C7_witness :
    clear_jwks_cache (some ⟨[okpKey]⟩) = none ∧
    clear_jwks_cache (clear_jwks_cache (some ⟨[okpKey]⟩))
      = clear_jwks_cache (some ⟨[okpKey]⟩) ∧
    get_jwks (clear_jwks_cache (some ⟨[okpKey]⟩)) (.ok ⟨[okpKey]⟩)
      = (.ok ⟨[okpKey]⟩, some ⟨[okpKey]⟩, 1) ∧
    (verify_token edEnv (clear_jwks_cache (some ⟨[okpKey]⟩))).2.2 = 1 :=
  ⟨C7_invalidate_idempotent.1 (some ⟨[okpKey]⟩),
   C7_invalidate_idempotent.2.1 (some ⟨[okpKey]⟩),
   C7_invalidate_idempotent.2.2.1 (some ⟨[okpKey]⟩) (.ok ⟨[okpKey]⟩)
     ⟨[okpKey]⟩ rfl,
   C7_invalidate_idempotent.2.2.2 edEnv (some ⟨[okpKey]⟩)
     ⟨some "EdDSA", some "k1"⟩ rfl⟩

/-- An environment whose JWKS fetch fails with a connection error. -/
def c8Env : Env :=
  { parseHeader := .ok ⟨some "EdDSA", some "k1"⟩
    fetch := .error "connection refused"
    edVerify := fun _ => .badSig "unused"
    rsaResolve := .error "unused"
    rsaVerify := fun _ _ => .badSig "unused" }

/-- Witness for C8: a failed fetch on an empty cache yields the 503
upstream failure and leaves the cache empty. -/
theorem C8_witness :
    verify_token c8Env none =
      (.error (.upstreamUnavailable
        ("Failed to fetch JWKS: " ++ "connection refused")), none, 1) ∧
    Failure.statusCode
      (.upstreamUnavailable ("Failed to fetch JWKS: " ++ "connection refused"))
      = 503 :=
  ⟨(C8_upstream_unavailable c8Env "connection refused"
      ⟨some "EdDSA", some "k1"⟩ rfl rfl).1,
   (C8_upstream_unavailable c8Env "connection refused"
      ⟨some "EdDSA", some "k1"⟩ rfl rfl).2.1⟩

/-- An environment whose token header has no algorithm field. -/
def c9Env : Env :=
  { parseHeader := .ok ⟨none, some "k1"⟩
    fetch := .error "unused"
    edVerify := fun _ => .ok uPayload
    rsaResolve := .error "unused"
    rsaVerify := fun _ _ => .badSig "unused" }

/-- Witness for C9 at a concrete alg-less header over an Ed25519 key. -/
theorem C9_witness :
    verify_token c9Env (some ⟨[okpKey]⟩) =
      verify_token
        { c9Env with parseHeader := .ok ⟨some "EdDSA", some "k1"⟩ }
        (some ⟨[okpKey]⟩) ∧
    (verify_token c9Env (some ⟨[okpKey]⟩)).1 = eddsaOutcome c9Env okpKey :=
  ⟨(C9_missing_alg_defaults c9Env (some ⟨[okpKey]⟩) (some "k1") rfl).1,
   (C9_missing_alg_defaults c9Env (some ⟨[okpKey]⟩) (some "k1") rfl).2
     ⟨[okpKey]⟩ okpKey rfl rfl rfl rfl⟩

/-- An environment whose token header carries an empty-string kid. -/
def c10Env : Env :=
  { parseHeader := .ok ⟨some "EdDSA", some ""⟩
    fetch := .error "unused"
    edVerify := fun _ => .ok uPayload
    rsaResolve := .error "unused"
    rsaVerify := fun _ _ => .badSig "unused" }

/-- Witness for C10 at a concrete empty-string-kid header. -/
theorem C10_witness :
    verify_token c10Env (some ⟨[okpKey]⟩) =
      verify_token
        { c10Env with parseHeader := .ok ⟨some "EdDSA", none⟩ }
        (some ⟨[okpKey]⟩) ∧
    find_key (some "") [okpKey] = find_key none [okpKey] ∧
    find_key (some "") (okpKey :: []) = some okpKey :=
  ⟨(C10_empty_kid_fallback c10Env (some ⟨[okpKey]⟩) (some "EdDSA") rfl).1,
   (C10_empty_kid_fallback c10Env (some ⟨[okpKey]⟩) (some "EdDSA") rfl).2.1
     [okpKey],
   (C10_empty_kid_fallback c10Env (some ⟨[okpKey]⟩) (some "EdDSA") rfl).2.2
     okpKey []⟩

end Auth
